import Mathlib

/-!
Verification development for the column-similarity engine in
`backend_technical_exercise.py`.

The Python program compares two tabular datasets column-by-column:
`determine_column_types` tags columns as string / numeric / unknown,
`compare_columns` scores one pair of columns (hashed-vector cosine
similarity for string columns, absolute Pearson correlation for numeric
columns, 0.0 on type mismatch or computational failure),
`process_chunk` crosses a chunk of dataset A against all of dataset B and
keeps pairs with score > 0.8, and `main` orchestrates loading, a worker
pool, aggregation (`sorted(set(...))` by descending score) and printing.

Scores are modelled over ℝ (the idealized semantics of the float
computations); column values are modelled over ℚ (numeric) and `String`
(text), with `Option` marking missing entries (pandas `NaN`).
-/

namespace DataAnalysis

/-! ## Tokenization and hashed feature vectors

`HashingVectorizer(n_features=1000)` with sklearn's default analyzer:
lowercase the text, extract maximal runs of word characters keeping those
of length ≥ 2 (token_pattern `\w\w+`, modelled for ASCII), hash each token
to one of 1000 buckets with a ±1 sign, and L2-normalize each document's
vector.  The bucket/sign map in sklearn is MurmurHash3, an external
library function not part of this repository; `tokenCode` below is a
deterministic stand-in for it — every theorem in this file depends only on
the map being a fixed function, never on particular hash values. -/

def isWordChar (c : Char) : Bool := c.isAlphanum || c == '_'

/-- One step of splitting a character list into maximal runs of word
characters: the state is (finished runs, current run). -/
def runStep (st : List (List Char) × List Char) (c : Char) :
    List (List Char) × List Char :=
  if isWordChar c then (st.1, st.2 ++ [c])
  else if st.2 = [] then (st.1, [])
  else (st.1 ++ [st.2], [])

/-- Maximal runs of word characters in a character list. -/
def splitRuns (cs : List Char) : List (List Char) :=
  let st := cs.foldl runStep ([], [])
  if st.2 = [] then st.1 else st.1 ++ [st.2]

/-- sklearn's default analyzer: lowercase, then keep the word-character
runs of length at least 2 as tokens. -/
def tokenize (s : String) : List String :=
  ((splitRuns (s.toList.map Char.toLower)).filter
    (fun r => decide (2 ≤ r.length))).map (fun r => String.mk r)

/-- Deterministic stand-in for the token hash (sklearn uses MurmurHash3,
external to this repository).  The claims depend only on determinism. -/
def tokenCode (t : String) : Nat :=
  t.toList.foldl (fun h c => h * 31 + c.toNat) 7

/-- Bucket of a token among the 1000 features. -/
def bucket (t : String) : Fin 1000 :=
  ⟨tokenCode t % 1000, Nat.mod_lt _ (by norm_num)⟩

/-- The ±1 sign sklearn attaches to each token occurrence
(`alternate_sign=True`). -/
def tokenSign (t : String) : ℚ :=
  if tokenCode t % 2 = 0 then 1 else -1

/-- Raw (unnormalized) hashed feature vector of one document: each token
adds its sign to its bucket. -/
def rawVec (d : String) : Fin 1000 → ℚ := fun i =>
  ((tokenize d).map (fun t => if bucket t = i then tokenSign t else 0)).sum

/-- Dot product of rational feature vectors. -/
def dotQ (u v : Fin 1000 → ℚ) : ℚ := ∑ i, u i * v i

/-- Dot product of real feature vectors. -/
def dotR (u v : Fin 1000 → ℝ) : ℝ := ∑ i, u i * v i

/-- L2-normalized document vector (sklearn normalizes each row of the
hashed matrix; a zero row stays zero, matching `x / 0 = 0` here). -/
noncomputable def normVec (d : String) : Fin 1000 → ℝ := fun i =>
  (rawVec d i : ℝ) / Real.sqrt ((dotQ (rawVec d) (rawVec d) : ℚ) : ℝ)

/-- `vector.mean(axis=0)`: componentwise mean of the documents'
normalized vectors. -/
noncomputable def meanVec (docs : List String) : Fin 1000 → ℝ := fun i =>
  ((docs.map (fun d => normVec d i)).sum) / (docs.length : ℝ)

/-- `sklearn.metrics.pairwise.cosine_similarity` of two single vectors:
normalized dot product, with zero vectors giving 0 (division by zero). -/
noncomputable def cosSim (u v : Fin 1000 → ℝ) : ℝ :=
  dotR u v / (Real.sqrt (dotR u u) * Real.sqrt (dotR v v))

/-! ## Pearson correlation (`scipy.stats.pearsonr`) -/

/-- Arithmetic mean of a rational sequence (0 for the empty sequence). -/
def listMean (xs : List ℚ) : ℚ := xs.sum / xs.length

/-- Σ (xᵢ - x̄)(yᵢ - ȳ) over the paired entries. -/
def covSum (xs ys : List ℚ) : ℚ :=
  ((xs.zip ys).map (fun p => (p.1 - listMean xs) * (p.2 - listMean ys))).sum

/-- The inputs on which `scipy.stats.pearsonr` yields a usable value:
equal lengths (otherwise it raises), at least two points (otherwise it
raises), and neither sequence constant (otherwise it yields NaN, which
fails every downstream comparison exactly as the 0.0 fallback does). -/
def PearsonDefined (xs ys : List ℚ) : Prop :=
  xs.length = ys.length ∧ 2 ≤ xs.length ∧ covSum xs xs ≠ 0 ∧ covSum ys ys ≠ 0

instance (xs ys : List ℚ) : Decidable (PearsonDefined xs ys) := by
  unfold PearsonDefined; infer_instance

/-- Pearson correlation coefficient. -/
noncomputable def pearson (xs ys : List ℚ) : ℝ :=
  (covSum xs ys : ℝ) /
    (Real.sqrt ((covSum xs xs : ℚ) : ℝ) * Real.sqrt ((covSum ys ys : ℚ) : ℝ))

/-! ## Columns, dataframes and type classification -/

/-- The values of a column together with its pandas dtype: a string
(object) column, a numeric column, or anything else (`unknown`).
Missing entries (pandas `NaN`) are `none`. -/
inductive ColData where
  | strData (vals : List (Option String))
  | numData (vals : List (Option ℚ))
  | unkData (count : Nat)
deriving DecidableEq

structure Column where
  name : String
  data : ColData
deriving DecidableEq

/-- The three-way type tag produced by `determine_column_types`. -/
inductive ColType where
  | string
  | numeric
  | unknown
deriving DecidableEq

/-- `pd.api.types.is_string_dtype` on our column model. -/
def isStringDtype (c : Column) : Bool :=
  match c.data with
  | .strData _ => true
  | _ => false

/-- `pd.api.types.is_numeric_dtype` on our column model. -/
def isNumericDtype (c : Column) : Bool :=
  match c.data with
  | .numData _ => true
  | _ => false

/-- The type tag of one column, mirroring the `if / elif / else` of
`determine_column_types`. -/
def columnType (c : Column) : ColType :=
  if isStringDtype c then .string
  else if isNumericDtype c then .numeric
  else .unknown

structure DataFrame where
  cols : List Column
deriving DecidableEq

def DataFrame.names (df : DataFrame) : List String := df.cols.map Column.name

/-- `determine_column_types`: the per-column type report. -/
def determine_column_types (df : DataFrame) : List (String × ColType) :=
  df.cols.map (fun c => (c.name, columnType c))

/-- `df[name]` column lookup (always succeeds for names drawn from
`df.columns`; the default is never reached then). -/
def getCol (df : DataFrame) (n : String) : Column :=
  (df.cols.find? (fun c => c.name == n)).getD ⟨n, ColData.unkData 0⟩

/-! ## The similarity scorer (`compare_columns`) -/

/-- `column.astype(str).fillna('')` as the code applies it to a string
column: `astype(str)` stringifies missing entries to the literal string
"nan" first, so the subsequent `fillna('')` finds no missing entries and
is a no-op. -/
def pyStr (vals : List (Option String)) : List String :=
  vals.map (fun o => o.getD "nan")

/-- `column.fillna(0)` on a numeric column. -/
def fillZero (vals : List (Option ℚ)) : List ℚ :=
  vals.map (fun o => o.getD 0)

/-- The body of `compare_columns`' `try` block: `none` models a raised
computational error (caught by the scorer and turned into 0.0): an empty
string column makes the mean vector NaN and `cosine_similarity` reject it,
and an undefined Pearson correlation (length mismatch, fewer than two
points, constant input) raises or yields NaN.  Type-mismatched columns
return 0.0 normally. -/
noncomputable def compare_columns_core (c1 c2 : Column) : Option ℝ :=
  match c1.data, c2.data with
  | .strData v1, .strData v2 =>
      if v1 = [] ∨ v2 = [] then none
      else some (cosSim (meanVec (pyStr v1)) (meanVec (pyStr v2)))
  | .numData v1, .numData v2 =>
      if PearsonDefined (fillZero v1) (fillZero v2)
      then some |pearson (fillZero v1) (fillZero v2)| else none
  | _, _ => some 0

/-- `compare_columns`: the similarity score, with the `except` branch
mapping any failure to 0.0. -/
noncomputable def compare_columns (c1 c2 : Column) : ℝ :=
  (compare_columns_core c1 c2).getD 0

/-! ## Chunk processing and aggregation -/

/-- One emitted comparison result: (columnNameA, columnNameB, score). -/
abbrev CompResult := String × String × ℝ

def score (r : CompResult) : ℝ := r.2.2

/-- `process_chunk`: every column of the chunk against every column of
dataset B, keeping pairs with score strictly above 0.8. -/
noncomputable def process_chunk (chunk_df1 full_df2 : DataFrame) :
    List CompResult :=
  chunk_df1.names.flatMap (fun n1 =>
    full_df2.names.filterMap (fun n2 =>
      let s := compare_columns (getCol chunk_df1 n1) (getCol full_df2 n2)
      if s > 0.8 then some (n1, n2, s) else none))

/-- Descending-score order used by `sorted(..., key=score, reverse=True)`. -/
def scoreGE (a b : CompResult) : Prop := score b ≤ score a

noncomputable instance : DecidableRel scoreGE := fun a b =>
  inferInstanceAs (Decidable (score b ≤ score a))

instance : IsTotal CompResult scoreGE := ⟨fun a b => le_total (score b) (score a)⟩

instance : IsTrans CompResult scoreGE := ⟨fun _ _ _ h1 h2 => le_trans h2 h1⟩

/-- A possible iteration order of the Python `set` built from `xs`:
it enumerates exactly the distinct elements of `xs`, in an order the
language does not fix (string hashing is randomized per process). -/
def IsSetEnum (xs ys : List CompResult) : Prop :=
  ys.Nodup ∧ ∀ a, a ∈ ys ↔ a ∈ xs

/-! ## The orchestrator (`main`)

The fallible external steps of `main` are modelled by an environment:
whether each input path exists, the outcome of fully loading dataset B
(`dask_df.read_csv(file_path2).compute()`), the outcome of computing
`dataframe1.head(1)` for type classification, whether creating the
multiprocessing pool succeeds, and the outcome of `dataframe1.to_delayed()`
together with each chunk's own computation (a `none` element is a chunk
whose `compute`/`apply_async`/`get` raised — caught by the per-chunk
`except`, which logs and continues). -/

structure Env where
  exists1 : Bool
  exists2 : Bool
  loadB : Option DataFrame
  headA : Option DataFrame
  poolOk : Bool
  toDelayed : Option (List (Option DataFrame))

/-- Observable console events of one run, in program order.  `errFileMsg`
is the explicit "One or both input files do not exist." line; `topError`
is the outermost `except` handler's "An error occurred" line;
`chunkError` is the per-chunk "Error processing chunk" line. -/
inductive Ev where
  | errFileMsg
  | loadingB
  | loadingA
  | determiningTypes
  | typesReport
  | comparing
  | poolCreated
  | chunkError
  | poolClosed
  | poolJoined
  | resultsHeader
  | topError
deriving DecidableEq

structure Outcome where
  exitCode : Nat
  events : List Ev
  printed : List CompResult

/-- The chunk-dispatch loop: failed chunks are skipped (their results are
dropped), successful chunks extend the collected list. -/
noncomputable def chunkLoop (df2 : DataFrame) :
    List (Option DataFrame) → List CompResult
  | [] => []
  | none :: rest => chunkLoop df2 rest
  | some c :: rest => process_chunk c df2 ++ chunkLoop df2 rest

/-- The per-chunk error messages emitted by the dispatch loop. -/
def chunkEvents : List (Option DataFrame) → List Ev
  | [] => []
  | none :: rest => Ev.chunkError :: chunkEvents rest
  | some _ :: rest => chunkEvents rest

/-- Events of every run that reaches the pool-creation line. -/
def preEvents : List Ev :=
  [Ev.loadingB, Ev.loadingA, Ev.determiningTypes, Ev.typesReport,
   Ev.comparing]

/-- `main`, as a function of the environment and of the `set` iteration
order `pickEnum` the run happens to use in `sorted(set(...))`.  Exit code
1 models `sys.exit(1)`; falling off the end of `main` exits 0. -/
noncomputable def main (env : Env) (pickEnum : List CompResult → List CompResult) :
    Outcome :=
  if env.exists1 = false ∨ env.exists2 = false then
    ⟨1, [Ev.errFileMsg], []⟩
  else
    match env.loadB with
    | none => ⟨1, [Ev.loadingB, Ev.topError], []⟩
    | some df2 =>
      match env.headA with
      | none =>
          ⟨1, [Ev.loadingB, Ev.loadingA, Ev.determiningTypes, Ev.topError], []⟩
      | some _ =>
        if env.poolOk = false then
          ⟨1, preEvents ++ [Ev.topError], []⟩
        else
          match env.toDelayed with
          | none => ⟨1, preEvents ++ [Ev.poolCreated, Ev.topError], []⟩
          | some chunks =>
            let collected := chunkLoop df2 chunks
            let final := List.insertionSort scoreGE (pickEnum collected)
            ⟨0,
             preEvents ++ [Ev.poolCreated] ++ chunkEvents chunks ++
               [Ev.poolClosed, Ev.poolJoined, Ev.resultsHeader],
             final⟩

/-- The failures the outermost `try`/`except` of `main` turns into a
reported error and `sys.exit(1)`. -/
def TopLevelFailure (env : Env) : Prop :=
  env.loadB = none ∨ env.headA = none ∨ env.poolOk = false ∨
    env.toDelayed = none

/-! ## The scorer the spec describes for the string path -/

/-- Modelled from the spec: the spec's String × String rule says values
are "stringified, missing replaced with empty string".  This definition
follows those words; the code's `compare_columns` instead renders missing
entries as the string "nan" (`astype(str)` runs before `fillna('')`,
making the latter a no-op). -/
noncomputable def spec_string_score (v1 v2 : List (Option String)) : ℝ :=
  cosSim (meanVec (v1.map (fun o => o.getD "")))
    (meanVec (v2.map (fun o => o.getD "")))

/-! ## Concrete data for witnesses and counterexamples -/

/-- A chunk of dataset A with two identical numeric columns. -/
def dfA : DataFrame :=
  ⟨[⟨"a", .numData [some 1, some 2]⟩, ⟨"b", .numData [some 1, some 2]⟩]⟩

/-- Dataset B with one numeric column equal to `dfA`'s. -/
def dfB : DataFrame := ⟨[⟨"x", .numData [some 1, some 2]⟩]⟩

/-- A run with existing files, successful loads, a working pool, and one
successfully computed chunk. -/
def envOk : Env := ⟨true, true, some dfB, some dfB, true, some [some dfA]⟩

/-- A run where everything up to and including pool creation succeeds but
enumerating the chunks of dataset A fails. -/
def envEnumFail : Env := ⟨true, true, some dfB, some dfB, true, none⟩

/-- A run where the first input file is missing. -/
def envMissing : Env := ⟨false, true, some dfB, some dfB, true, some [some dfA]⟩

/-- A chunk holding a numeric column `p` (two rows) and a string column
`s`. -/
def df1c : DataFrame :=
  ⟨[⟨"p", .numData [some 1, some 2]⟩, ⟨"s", .strData [some "ab"]⟩]⟩

/-- A dataset B holding a numeric column `x` (three rows — so scoring `p`
against `x` raises inside `pearsonr`) and a string column `t` matching
`s`. -/
def df2c : DataFrame :=
  ⟨[⟨"x", .numData [some 1, some 2, some 3]⟩, ⟨"t", .strData [some "ab"]⟩]⟩

/-! ## Lemmas: Pearson correlation -/

lemma zip_self_eq_map {α : Type} (l : List α) :
    l.zip l = l.map (fun a => (a, a)) := by
  induction l with
  | nil => rfl
  | cons a t ih => simp [List.zip_cons_cons, ih]

lemma covSum_comm (xs ys : List ℚ) : covSum xs ys = covSum ys xs := by
  unfold covSum
  rw [← List.zip_swap xs ys, List.map_map]
  refine congrArg List.sum (List.map_congr_left fun p _ => ?_)
  simp only [Function.comp, Prod.fst_swap, Prod.snd_swap]
  ring

lemma covSum_self (xs : List ℚ) :
    covSum xs xs = (xs.map (fun a => (a - listMean xs) ^ 2)).sum := by
  unfold covSum
  rw [zip_self_eq_map, List.map_map]
  refine congrArg List.sum (List.map_congr_left fun a _ => ?_)
  simp [Function.comp, sq]

lemma covSum_self_nonneg (xs : List ℚ) : 0 ≤ covSum xs xs := by
  rw [covSum_self]
  apply List.sum_nonneg
  intro a ha
  obtain ⟨b, _, rfl⟩ := List.mem_map.mp ha
  positivity

lemma pearson_self (xs : List ℚ) (h : covSum xs xs ≠ 0) :
    pearson xs xs = 1 := by
  unfold pearson
  rw [Real.mul_self_sqrt (by exact_mod_cast covSum_self_nonneg xs)]
  exact div_self (by exact_mod_cast h)

lemma pearson_comm (xs ys : List ℚ) : pearson xs ys = pearson ys xs := by
  unfold pearson
  rw [covSum_comm xs ys, mul_comm]

lemma pearsonDefined_comm (xs ys : List ℚ) :
    PearsonDefined xs ys ↔ PearsonDefined ys xs := by
  unfold PearsonDefined
  constructor <;> rintro ⟨h1, h2, h3, h4⟩ <;>
    exact ⟨h1.symm, by omega, h4, h3⟩

/-! ## Lemmas: cosine similarity -/

lemma dotR_self_nonneg (u : Fin 1000 → ℝ) : 0 ≤ dotR u u :=
  Finset.sum_nonneg fun _ _ => mul_self_nonneg _

lemma cosSim_self {u : Fin 1000 → ℝ} (h : dotR u u ≠ 0) : cosSim u u = 1 := by
  unfold cosSim
  rw [Real.mul_self_sqrt (dotR_self_nonneg u)]
  exact div_self h

lemma dotR_comm (u v : Fin 1000 → ℝ) : dotR u v = dotR v u :=
  Finset.sum_congr rfl fun _ _ => mul_comm _ _

lemma cosSim_comm (u v : Fin 1000 → ℝ) : cosSim u v = cosSim v u := by
  unfold cosSim
  rw [dotR_comm u v, mul_comm]

lemma dotR_self_pos {u : Fin 1000 → ℝ} (h : u ≠ 0) : 0 < dotR u u := by
  obtain ⟨i, hi⟩ := Function.ne_iff.mp h
  exact Finset.sum_pos' (fun j _ => mul_self_nonneg _)
    ⟨i, Finset.mem_univ i, mul_self_pos.mpr hi⟩

lemma cosSim_zero_left (v : Fin 1000 → ℝ) : cosSim (fun _ => 0) v = 0 := by
  unfold cosSim dotR
  simp

/-! ## Lemmas: unfolding the scorer -/

lemma compare_columns_num (n1 n2 : String) (v1 v2 : List (Option ℚ)) :
    compare_columns ⟨n1, .numData v1⟩ ⟨n2, .numData v2⟩ =
      if PearsonDefined (fillZero v1) (fillZero v2)
      then |pearson (fillZero v1) (fillZero v2)| else 0 := by
  by_cases h : PearsonDefined (fillZero v1) (fillZero v2) <;>
    simp [compare_columns, compare_columns_core, h]

lemma compare_columns_str (n1 n2 : String) (v1 v2 : List (Option String))
    (h1 : v1 ≠ []) (h2 : v2 ≠ []) :
    compare_columns ⟨n1, .strData v1⟩ ⟨n2, .strData v2⟩ =
      cosSim (meanVec (pyStr v1)) (meanVec (pyStr v2)) := by
  simp [compare_columns, compare_columns_core, h1, h2]

lemma compare_columns_mismatch {c1 c2 : Column}
    (h : columnType c1 ≠ columnType c2) : compare_columns c1 c2 = 0 := by
  rcases c1 with ⟨n1, d1⟩
  rcases c2 with ⟨n2, d2⟩
  cases d1 <;> cases d2 <;>
    simp_all [compare_columns, compare_columns_core, columnType,
      isStringDtype, isNumericDtype]

/-! ## Lemmas: chunk processing and the dispatch loop -/

lemma mem_process_chunk {df1 df2 : DataFrame} {r : CompResult} :
    r ∈ process_chunk df1 df2 ↔
      ∃ n1 ∈ df1.names, ∃ n2 ∈ df2.names,
        compare_columns (getCol df1 n1) (getCol df2 n2) > 0.8 ∧
          r = (n1, n2, compare_columns (getCol df1 n1) (getCol df2 n2)) := by
  simp only [process_chunk, List.mem_flatMap, List.mem_filterMap]
  constructor
  · rintro ⟨n1, h1, n2, h2, hr⟩
    by_cases hs : compare_columns (getCol df1 n1) (getCol df2 n2) > 0.8
    · rw [if_pos hs] at hr
      exact ⟨n1, h1, n2, h2, hs, (Option.some.injEq _ _ ▸ hr).symm⟩
    · rw [if_neg hs] at hr
      exact absurd hr (Option.noConfusion)
  · rintro ⟨n1, h1, n2, h2, hs, rfl⟩
    exact ⟨n1, h1, n2, h2, by rw [if_pos hs]⟩

lemma score_pos_of_mem_process_chunk {df1 df2 : DataFrame} {r : CompResult}
    (h : r ∈ process_chunk df1 df2) : score r > 0.8 := by
  obtain ⟨n1, _, n2, _, hs, rfl⟩ := mem_process_chunk.mp h
  exact hs

lemma mem_chunkLoop {df2 : DataFrame} {chunks : List (Option DataFrame)}
    {r : CompResult} :
    r ∈ chunkLoop df2 chunks ↔
      ∃ c, some c ∈ chunks ∧ r ∈ process_chunk c df2 := by
  induction chunks with
  | nil => simp [chunkLoop]
  | cons o rest ih =>
    cases o with
    | none => simpa [chunkLoop] using ih
    | some c =>
      simp only [chunkLoop, List.mem_append, ih, List.mem_cons]
      constructor
      · rintro (hr | ⟨c', hc', hr⟩)
        · exact ⟨c, Or.inl rfl, hr⟩
        · exact ⟨c', Or.inr hc', hr⟩
      · rintro ⟨c', hc' | hc', hr⟩
        · exact Or.inl (by cases hc'; exact hr)
        · exact Or.inr ⟨c', hc', hr⟩

/-! ## Lemmas: concrete hashed-vector evaluations -/

lemma rawVec_single {d t : String} (h : tokenize d = [t]) :
    rawVec d = fun i => if bucket t = i then tokenSign t else 0 := by
  funext i
  simp [rawVec, h]

lemma tokenSign_mul_self (t : String) : tokenSign t * tokenSign t = 1 := by
  unfold tokenSign
  split <;> norm_num

lemma dotQ_ite (t : String) :
    dotQ (fun i => if bucket t = i then tokenSign t else 0)
      (fun i => if bucket t = i then tokenSign t else 0) = 1 := by
  unfold dotQ
  have h : ∀ i : Fin 1000,
      (if bucket t = i then tokenSign t else 0) *
        (if bucket t = i then tokenSign t else 0) =
      if bucket t = i then (1 : ℚ) else 0 := by
    intro i
    by_cases hb : bucket t = i <;> simp [hb, tokenSign_mul_self]
  rw [Finset.sum_congr rfl fun i _ => h i]
  simp

lemma normVec_single {d t : String} (h : tokenize d = [t]) :
    normVec d = fun i => ((if bucket t = i then tokenSign t else 0 : ℚ) : ℝ) := by
  funext i
  unfold normVec
  simp only [rawVec_single h, dotQ_ite, Rat.cast_one, Real.sqrt_one, div_one]

lemma meanVec_single {d t : String} (h : tokenize d = [t]) :
    meanVec [d] = fun i => ((if bucket t = i then tokenSign t else 0 : ℚ) : ℝ) := by
  funext i
  simp [meanVec, normVec_single h]

lemma dotR_cast (u v : Fin 1000 → ℚ) :
    dotR (fun i => ((u i : ℚ) : ℝ)) (fun i => ((v i : ℚ) : ℝ)) =
      ((dotQ u v : ℚ) : ℝ) := by
  unfold dotR dotQ
  push_cast
  rfl

lemma meanVec_single_dotR {d t : String} (h : tokenize d = [t]) :
    dotR (meanVec [d]) (meanVec [d]) = 1 := by
  rw [meanVec_single h, dotR_cast, dotQ_ite]
  norm_num

lemma cosSim_meanVec_single {d t : String} (h : tokenize d = [t]) :
    cosSim (meanVec [d]) (meanVec [d]) = 1 :=
  cosSim_self (by rw [meanVec_single_dotR h]; norm_num)

lemma meanVec_single_ne_zero {d t : String} (h : tokenize d = [t]) :
    meanVec [d] ≠ 0 := by
  intro hz
  have h1 : dotR (meanVec [d]) (meanVec [d]) = 1 := meanVec_single_dotR h
  rw [hz] at h1
  unfold dotR at h1
  simp at h1

lemma rawVec_no_tokens {d : String} (h : tokenize d = []) :
    rawVec d = fun _ => 0 := by
  funext i
  simp [rawVec, h]

lemma normVec_no_tokens {d : String} (h : tokenize d = []) :
    normVec d = fun _ => 0 := by
  funext i
  simp [normVec, rawVec_no_tokens h]

lemma meanVec_empty_str : meanVec [""] = fun _ => 0 := by
  funext i
  simp [meanVec, normVec_no_tokens (show tokenize "" = [] from by decide)]

lemma pearsonDefined_12 : PearsonDefined (fillZero [some 1, some 2])
    (fillZero [some 1, some 2]) := by
  refine ⟨rfl, by norm_num [fillZero], ?_, ?_⟩ <;>
    norm_num [covSum, listMean, fillZero]

lemma compare_num_12 : compare_columns ⟨"a", .numData [some 1, some 2]⟩
    ⟨"x", .numData [some 1, some 2]⟩ = 1 := by
  rw [compare_columns_num, if_pos pearsonDefined_12,
    pearson_self _ pearsonDefined_12.2.2.1]
  norm_num

lemma compare_str_abab : compare_columns ⟨"s", .strData [some "ab"]⟩
    ⟨"t", .strData [some "ab"]⟩ = 1 := by
  rw [compare_columns_str _ _ _ _ (by simp) (by simp)]
  have hp : pyStr [some "ab"] = ["ab"] := rfl
  rw [hp]
  exact cosSim_meanVec_single (show tokenize "ab" = ["ab"] from by decide)

lemma process_chunk_AB :
    process_chunk dfA dfB = [("a", "x", (1 : ℝ)), ("b", "x", (1 : ℝ))] := by
  unfold process_chunk
  have hnA : dfA.names = ["a", "b"] := rfl
  have hnB : dfB.names = ["x"] := rfl
  rw [hnA, hnB]
  have ca : compare_columns (getCol dfA "a") (getCol dfB "x") = 1 := by
    have ha : getCol dfA "a" = ⟨"a", .numData [some 1, some 2]⟩ := rfl
    have hx : getCol dfB "x" = ⟨"x", .numData [some 1, some 2]⟩ := rfl
    rw [ha, hx]
    exact compare_num_12
  have cb : compare_columns (getCol dfA "b") (getCol dfB "x") = 1 := by
    have hb : getCol dfA "b" = ⟨"b", .numData [some 1, some 2]⟩ := rfl
    have hx : getCol dfB "x" = ⟨"x", .numData [some 1, some 2]⟩ := rfl
    rw [hb, hx, compare_columns_num, if_pos pearsonDefined_12,
      pearson_self _ pearsonDefined_12.2.2.1]
    norm_num
  simp [List.flatMap, List.filterMap, ca, cb]
  norm_num

lemma chunkLoop_envOk :
    chunkLoop dfB [some dfA] = [("a", "x", (1 : ℝ)), ("b", "x", (1 : ℝ))] := by
  simp [chunkLoop, process_chunk_AB]

lemma not_pearsonDefined_23 :
    ¬ PearsonDefined (fillZero [some 1, some 2])
        (fillZero [some 1, some 2, some 3]) := by
  intro h
  have h1 := h.1
  simp [fillZero] at h1

lemma core_px_none :
    compare_columns_core ⟨"p", .numData [some 1, some 2]⟩
      ⟨"x", .numData [some 1, some 2, some 3]⟩ = none := by
  simp [compare_columns_core, not_pearsonDefined_23]

lemma compare_st_in_output :
    ("s", "t", compare_columns (getCol df1c "s") (getCol df2c "t")) ∈
      process_chunk df1c df2c := by
  apply mem_process_chunk.mpr
  refine ⟨"s", by simp [df1c, DataFrame.names], "t",
    by simp [df2c, DataFrame.names], ?_, rfl⟩
  have hs : getCol df1c "s" = ⟨"s", .strData [some "ab"]⟩ := rfl
  have ht : getCol df2c "t" = ⟨"t", .strData [some "ab"]⟩ := rfl
  rw [hs, ht, compare_str_abab]
  norm_num

/-! ## Lemmas: aggregation and the orchestrator -/

lemma insertionSort_pair_eq {r1 r2 : CompResult} (h : score r1 = score r2) :
    List.insertionSort scoreGE [r1, r2] = [r1, r2] := by
  simp only [List.insertionSort, List.orderedInsert]
  rw [if_pos (show scoreGE r1 r2 from le_of_eq h.symm)]

lemma main_success_eq (env : Env) (pe : List CompResult → List CompResult)
    (df2 hd : DataFrame) (chunks : List (Option DataFrame))
    (h1 : env.exists1 = true) (h2 : env.exists2 = true)
    (hB : env.loadB = some df2) (hH : env.headA = some hd)
    (hp : env.poolOk = true) (hD : env.toDelayed = some chunks) :
    main env pe =
      ⟨0,
       preEvents ++ [Ev.poolCreated] ++ chunkEvents chunks ++
         [Ev.poolClosed, Ev.poolJoined, Ev.resultsHeader],
       List.insertionSort scoreGE (pe (chunkLoop df2 chunks))⟩ := by
  obtain ⟨e1, e2, lB, hA, pk, tD⟩ := env
  simp only at h1 h2 hB hH hp hD
  subst h1 h2 hB hH hp hD
  simp [main]

lemma main_printed_empty_of_no_chunks (env : Env)
    (pe : List CompResult → List CompResult)
    (h : env.toDelayed = none ∨ env.loadB = none ∨ env.headA = none ∨
      env.poolOk = false ∨ env.exists1 = false ∨ env.exists2 = false) :
    (main env pe).printed = [] := by
  obtain ⟨e1, e2, lB, hA, pk, tD⟩ := env
  simp only at h
  cases e1 <;> cases e2 <;> cases lB <;> cases hA <;> cases pk <;> cases tD <;>
    simp_all [main]

lemma mem_printed_success {env : Env}
    {pe : List CompResult → List CompResult} {df2 : DataFrame}
    {chunks : List (Option DataFrame)} {r : CompResult}
    (hB : env.loadB = some df2) (hD : env.toDelayed = some chunks)
    (hEnum : IsSetEnum (chunkLoop df2 chunks) (pe (chunkLoop df2 chunks)))
    (hr : r ∈ (main env pe).printed) : r ∈ chunkLoop df2 chunks := by
  obtain ⟨e1, e2, lB, hA, pk, tD⟩ := env
  simp only at hB hD
  subst hB hD
  cases e1
  · simp [main] at hr
  · cases e2
    · simp [main] at hr
    · cases hA with
      | none => simp [main] at hr
      | some hd =>
        cases pk
        · simp [main] at hr
        · rw [main_success_eq _ pe df2 hd chunks rfl rfl rfl rfl rfl rfl] at hr
          simp only [List.mem_insertionSort] at hr
          exact (hEnum.2 r).mp hr

/-! ## Claim theorems -/

/-- C1: whenever the classified types of two columns differ, the scorer
returns exactly 0.0, and no result tuple for that pair of column names is
ever emitted by `process_chunk`. -/
theorem type_mismatch_zero (c1 c2 : Column)
    (h : columnType c1 ≠ columnType c2) :
    compare_columns c1 c2 = 0 ∧
    ∀ (df1 df2 : DataFrame) (s : ℝ),
      getCol df1 c1.name = c1 → getCol df2 c2.name = c2 →
      (c1.name, c2.name, s) ∉ process_chunk df1 df2 := by
  refine ⟨compare_columns_mismatch h, ?_⟩
  intro df1 df2 s h1 h2 hmem
  obtain ⟨n1, _, n2, _, hs, heq⟩ := mem_process_chunk.mp hmem
  obtain ⟨e1, e2, _⟩ : c1.name = n1 ∧ c2.name = n2 ∧
      s = compare_columns (getCol df1 n1) (getCol df2 n2) := by
    simpa [Prod.ext_iff] using heq
  rw [← e1, ← e2, h1, h2, compare_columns_mismatch h] at hs
  norm_num at hs

/-- C1 witness: a string column and a numeric column (the concrete
`df1c`/`df2c` pair `s`/`x`) score 0.0 and never appear in the chunk
output. -/
theorem type_mismatch_zero_witness :
    columnType ⟨"s", .strData [some "ab"]⟩ ≠
      columnType ⟨"x", .numData [some 1, some 2, some 3]⟩ ∧
    compare_columns ⟨"s", .strData [some "ab"]⟩
      ⟨"x", .numData [some 1, some 2, some 3]⟩ = 0 ∧
    ("s", "x", (0.9 : ℝ)) ∉ process_chunk df1c df2c := by
  have h : columnType ⟨"s", .strData [some "ab"]⟩ ≠
      columnType ⟨"x", .numData [some 1, some 2, some 3]⟩ := by
    intro hc
    exact ColType.noConfusion hc
  exact ⟨h, (type_mismatch_zero _ _ h).1,
    (type_mismatch_zero _ _ h).2 df1c df2c 0.9 rfl rfl⟩

/-- C2: every result emitted by `process_chunk` has score strictly above
0.8, and so does every entry of the final printed list of `main`. -/
theorem threshold_invariant :
    (∀ (df1 df2 : DataFrame) (r : CompResult),
      r ∈ process_chunk df1 df2 → score r > 0.8) ∧
    (∀ (env : Env) (pe : List CompResult → List CompResult)
        (df2 : DataFrame) (chunks : List (Option DataFrame)),
      env.loadB = some df2 → env.toDelayed = some chunks →
      IsSetEnum (chunkLoop df2 chunks) (pe (chunkLoop df2 chunks)) →
      ∀ r ∈ (main env pe).printed, score r > 0.8) := by
  constructor
  · exact fun _ _ _ h => score_pos_of_mem_process_chunk h
  · intro env pe df2 chunks hB hD hEnum r hr
    obtain ⟨c, _, hc⟩ :=
      mem_chunkLoop.mp (mem_printed_success hB hD hEnum hr)
    exact score_pos_of_mem_process_chunk hc

/-- C2 witness: the concrete pair ("a","x") with score 1 is emitted by a
chunk, and its score exceeds 0.8. -/
theorem threshold_invariant_witness :
    ("a", "x", (1 : ℝ)) ∈ process_chunk dfA dfB ∧
    score ("a", "x", (1 : ℝ)) > 0.8 := by
  have hm : ("a", "x", (1 : ℝ)) ∈ process_chunk dfA dfB := by
    rw [process_chunk_AB]
    simp
  exact ⟨hm, threshold_invariant.1 dfA dfB _ hm⟩

/-- C3 (amended): on two numeric columns the scorer fills missing values
with 0 and returns the absolute Pearson correlation whenever the
correlation is defined (equal lengths, at least two rows, neither
zero-filled sequence constant); when it is undefined the error fallback
returns 0.0.  Self-comparison yields exactly 1 whenever the correlation
is defined. -/
theorem numeric_scoring :
    (∀ (n1 n2 : String) (v1 v2 : List (Option ℚ)),
      compare_columns ⟨n1, .numData v1⟩ ⟨n2, .numData v2⟩ =
        if PearsonDefined (fillZero v1) (fillZero v2)
        then |pearson (fillZero v1) (fillZero v2)| else 0) ∧
    (∀ (n : String) (v : List (Option ℚ)),
      PearsonDefined (fillZero v) (fillZero v) →
      compare_columns ⟨n, .numData v⟩ ⟨n, .numData v⟩ = 1) := by
  refine ⟨fun n1 n2 v1 v2 => compare_columns_num n1 n2 v1 v2, ?_⟩
  intro n v hd
  rw [compare_columns_num, if_pos hd, pearson_self _ hd.2.2.1]
  norm_num

/-- C3 witness: the numeric column [1, missing, 3] compared with itself
has a defined correlation and scores exactly 1. -/
theorem numeric_scoring_witness :
    PearsonDefined (fillZero [some 1, none, some 3])
      (fillZero [some 1, none, some 3]) ∧
    compare_columns ⟨"p", .numData [some 1, none, some 3]⟩
      ⟨"p", .numData [some 1, none, some 3]⟩ = 1 := by
  have hd : PearsonDefined (fillZero [some 1, none, some 3])
      (fillZero [some 1, none, some 3]) := by
    refine ⟨rfl, by norm_num [fillZero], ?_, ?_⟩ <;>
      norm_num [covSum, listMean, fillZero]
  exact ⟨hd, numeric_scoring.2 "p" _ hd⟩

/-- C3 counterexample: a constant numeric column compared with an
identical copy of itself scores 0.0, not 1.0 — `pearsonr` is undefined on
constant input, so the claim "comparing a numeric column with an
identical copy of itself yields score 1.0" fails here. -/
theorem numeric_scoring_counterexample :
    compare_columns ⟨"x", .numData [some 5, some 5]⟩
      ⟨"x", .numData [some 5, some 5]⟩ = 0 ∧ (0 : ℝ) ≠ 1 := by
  constructor
  · rw [compare_columns_num, if_neg]
    intro h
    exact h.2.2.1 (by norm_num [covSum, listMean, fillZero])
  · norm_num

/-- C4 (amended): on two nonempty string columns the scorer computes the
cosine similarity of the mean hashed (1000-dimension, stateless scheme,
identical for both sides) vectors of the stringified values — with
missing entries rendered as the string "nan", since `astype(str)` runs
before `fillna('')`; self-comparison yields 1 whenever the mean hashed
vector is nonzero. -/
theorem string_scoring :
    (∀ (n1 n2 : String) (v1 v2 : List (Option String)), v1 ≠ [] → v2 ≠ [] →
      compare_columns ⟨n1, .strData v1⟩ ⟨n2, .strData v2⟩ =
        cosSim (meanVec (pyStr v1)) (meanVec (pyStr v2))) ∧
    (∀ (n : String) (v : List (Option String)), v ≠ [] →
      meanVec (pyStr v) ≠ 0 →
      compare_columns ⟨n, .strData v⟩ ⟨n, .strData v⟩ = 1) := by
  refine ⟨fun n1 n2 v1 v2 h1 h2 => compare_columns_str n1 n2 v1 v2 h1 h2, ?_⟩
  intro n v hv hnz
  rw [compare_columns_str n n v v hv hv]
  exact cosSim_self (ne_of_gt (dotR_self_pos hnz))

/-- C4 witness: the string column ["ab"] compared with itself has a
nonzero mean hashed vector and scores exactly 1. -/
theorem string_scoring_witness :
    ([some "ab"] ≠ ([] : List (Option String))) ∧
    meanVec (pyStr [some "ab"]) ≠ 0 ∧
    compare_columns ⟨"s", .strData [some "ab"]⟩
      ⟨"s", .strData [some "ab"]⟩ = 1 := by
  have hne : meanVec (pyStr [some "ab"]) ≠ 0 := by
    have hp : pyStr [some "ab"] = ["ab"] := rfl
    rw [hp]
    exact meanVec_single_ne_zero (show tokenize "ab" = ["ab"] from by decide)
  exact ⟨by simp, hne, string_scoring.2 "s" _ (by simp) hne⟩

/-- C4 counterexample: (i) a missing value is vectorized as the token
"nan", not as the empty string — the code scores a column holding one
missing value against the column ["nan"] as 1, while the spec's
"missing replaced by empty string" rule scores the same pair 0; (ii) a
string column whose only value has no tokens compared with an identical
copy of itself scores 0, not 1. -/
theorem string_scoring_counterexample :
    compare_columns ⟨"a", .strData [none]⟩ ⟨"b", .strData [some "nan"]⟩ = 1 ∧
    spec_string_score [none] [some "nan"] = 0 ∧
    compare_columns ⟨"e", .strData [some ""]⟩ ⟨"e", .strData [some ""]⟩ = 0 ∧
    (0 : ℝ) ≠ 1 := by
  refine ⟨?_, ?_, ?_, by norm_num⟩
  · rw [compare_columns_str _ _ _ _ (by simp) (by simp)]
    have h1 : pyStr [none] = ["nan"] := rfl
    have h2 : pyStr [some "nan"] = ["nan"] := rfl
    rw [h1, h2]
    exact cosSim_meanVec_single (show tokenize "nan" = ["nan"] from by decide)
  · unfold spec_string_score
    have h1 : ([none] : List (Option String)).map (fun o => o.getD "") =
        [""] := rfl
    rw [h1, meanVec_empty_str]
    exact cosSim_zero_left _
  · rw [compare_columns_str _ _ _ _ (by simp) (by simp)]
    have h : pyStr [some ""] = [""] := rfl
    rw [h, meanVec_empty_str]
    exact cosSim_zero_left _

/-- C5: a failing similarity computation (`compare_columns_core = none`,
e.g. mismatched lengths for `pearsonr` or an empty string column) is
caught and scored 0.0; and membership of any pair in a chunk's output
depends only on that pair's own score, so a failure on one pair never
removes any other pair from the output. -/
theorem error_fallback :
    (∀ c1 c2 : Column,
      compare_columns_core c1 c2 = none → compare_columns c1 c2 = 0) ∧
    (∀ (df1 df2 : DataFrame) (r : CompResult),
      r ∈ process_chunk df1 df2 ↔
        ∃ n1 ∈ df1.names, ∃ n2 ∈ df2.names,
          compare_columns (getCol df1 n1) (getCol df2 n2) > 0.8 ∧
            r = (n1, n2, compare_columns (getCol df1 n1) (getCol df2 n2))) :=
  ⟨fun c1 c2 h => by simp [compare_columns, h],
   fun _ _ _ => mem_process_chunk⟩

/-- C5 witness: scoring the 2-row numeric column `p` against the 3-row
numeric column `x` fails inside `pearsonr` and is scored 0.0, while the
pair (`s`,`t`) of the same chunk still appears in the output. -/
theorem error_fallback_witness :
    compare_columns_core ⟨"p", .numData [some 1, some 2]⟩
      ⟨"x", .numData [some 1, some 2, some 3]⟩ = none ∧
    compare_columns ⟨"p", .numData [some 1, some 2]⟩
      ⟨"x", .numData [some 1, some 2, some 3]⟩ = 0 ∧
    ("s", "t", compare_columns (getCol df1c "s") (getCol df2c "t")) ∈
      process_chunk df1c df2c :=
  ⟨core_px_none, error_fallback.1 _ _ core_px_none,
   (error_fallback.2 df1c df2c _).mpr
     ⟨"s", by simp [df1c, DataFrame.names], "t",
      by simp [df2c, DataFrame.names],
      by
        have hs : getCol df1c "s" = ⟨"s", .strData [some "ab"]⟩ := rfl
        have ht : getCol df2c "t" = ⟨"t", .strData [some "ab"]⟩ := rfl
        rw [hs, ht, compare_str_abab]
        norm_num,
      rfl⟩⟩

/-- C6: the program exits nonzero iff an input file is missing or a
top-level failure occurs; on a missing file it emits exactly the explicit
error message and performs no comparison work; and a run whose only
failures are individual chunks still exits 0. -/
theorem exit_code_spec (env : Env) (pe : List CompResult → List CompResult) :
    ((main env pe).exitCode ≠ 0 ↔
      env.exists1 = false ∨ env.exists2 = false ∨ TopLevelFailure env) ∧
    ((env.exists1 = false ∨ env.exists2 = false) →
      (main env pe).events = [Ev.errFileMsg] ∧ (main env pe).printed = []) ∧
    (env.exists1 = true → env.exists2 = true → ¬ TopLevelFailure env →
      (main env pe).exitCode = 0) := by
  obtain ⟨e1, e2, lB, hA, pk, tD⟩ := env
  cases e1 <;> cases e2 <;> cases lB <;> cases hA <;> cases pk <;> cases tD <;>
    simp [main, TopLevelFailure]

/-- C6 witness: a run with a missing first file exits nonzero, prints
exactly the missing-file message, and prints no results — applied at the
concrete environment `envMissing`. -/
theorem exit_code_spec_witness :
    (main envMissing id).exitCode ≠ 0 ∧
    (main envMissing id).events = [Ev.errFileMsg] ∧
    (main envMissing id).printed = [] :=
  ⟨(exit_code_spec envMissing id).1.mpr (Or.inl rfl),
   ((exit_code_spec envMissing id).2.1 (Or.inl rfl)).1,
   ((exit_code_spec envMissing id).2.1 (Or.inl rfl)).2⟩

/-- C7: on a successful run the final printed list is the deduplicated
concatenation of the chunks' filtered matches sorted by score descending:
duplicate-free, sorted, and containing a tuple iff some chunk emitted it;
in particular two tuples with the same name pair but different scores are
never merged — both appear. -/
theorem aggregation_spec (env : Env) (pe : List CompResult → List CompResult)
    (df2 hd : DataFrame) (chunks : List (Option DataFrame))
    (h1 : env.exists1 = true) (h2 : env.exists2 = true)
    (hB : env.loadB = some df2) (hH : env.headA = some hd)
    (hp : env.poolOk = true) (hD : env.toDelayed = some chunks)
    (hEnum : IsSetEnum (chunkLoop df2 chunks) (pe (chunkLoop df2 chunks))) :
    (main env pe).printed.Nodup ∧
    List.Sorted scoreGE (main env pe).printed ∧
    (∀ r : CompResult,
      r ∈ (main env pe).printed ↔ r ∈ chunkLoop df2 chunks) ∧
    (∀ (n1 n2 : String) (s s' : ℝ), s ≠ s' →
      (n1, n2, s) ∈ chunkLoop df2 chunks →
      (n1, n2, s') ∈ chunkLoop df2 chunks →
      (n1, n2, s) ∈ (main env pe).printed ∧
        (n1, n2, s') ∈ (main env pe).printed) := by
  have he : (main env pe).printed =
      List.insertionSort scoreGE (pe (chunkLoop df2 chunks)) := by
    rw [main_success_eq env pe df2 hd chunks h1 h2 hB hH hp hD]
  rw [he]
  have hperm : (List.insertionSort scoreGE (pe (chunkLoop df2 chunks))).Perm
      (pe (chunkLoop df2 chunks)) := List.perm_insertionSort _ _
  have hmem : ∀ r : CompResult,
      r ∈ List.insertionSort scoreGE (pe (chunkLoop df2 chunks)) ↔
        r ∈ chunkLoop df2 chunks := by
    intro r
    rw [List.mem_insertionSort]
    exact hEnum.2 r
  exact ⟨hperm.nodup_iff.mpr hEnum.1, List.sorted_insertionSort _ _, hmem,
    fun n1 n2 s s' _hne hs hs' =>
      ⟨(hmem _).mpr hs, (hmem _).mpr hs'⟩⟩

/-- C7 witness: on the concrete successful run (identity enumeration of
an already duplicate-free collection) the printed list is duplicate-free,
sorted, and contains the emitted pair. -/
theorem aggregation_spec_witness :
    (main envOk id).printed.Nodup ∧
    List.Sorted scoreGE (main envOk id).printed ∧
    (("a", "x", (1 : ℝ)) ∈ (main envOk id).printed ↔
      ("a", "x", (1 : ℝ)) ∈ chunkLoop dfB [some dfA]) := by
  have hEnum : IsSetEnum (chunkLoop dfB [some dfA])
      (id (chunkLoop dfB [some dfA])) := by
    refine ⟨?_, fun a => Iff.rfl⟩
    rw [id_eq, chunkLoop_envOk]
    simp
  have h := aggregation_spec envOk id dfB dfB [some dfA]
    rfl rfl rfl rfl rfl rfl hEnum
  exact ⟨h.1, h.2.1, h.2.2.1 _⟩

/-- C8 (amended): two runs on the same inputs that differ only in their
set-iteration order produce the same exit code and events and printed
lists equal as multisets, each sorted by score descending; the relative
order of distinct entries sharing a score is not fixed across runs. -/
theorem run_determinism (env : Env)
    (pe1 pe2 : List CompResult → List CompResult)
    (hv1 : ∀ xs, IsSetEnum xs (pe1 xs))
    (hv2 : ∀ xs, IsSetEnum xs (pe2 xs)) :
    (main env pe1).exitCode = (main env pe2).exitCode ∧
    (main env pe1).events = (main env pe2).events ∧
    (main env pe1).printed.Perm ((main env pe2).printed) ∧
    List.Sorted scoreGE (main env pe1).printed ∧
    List.Sorted scoreGE (main env pe2).printed := by
  obtain ⟨e1, e2, lB, hA, pk, tD⟩ := env
  cases e1 <;> cases e2 <;> cases lB <;> cases hA <;> cases pk <;> cases tD <;>
    first
      | (refine ⟨rfl, rfl, ?_, ?_, ?_⟩ <;> (simp [main]; done))
      | (rename_i df2 hd chunks
         have me1 := main_success_eq ⟨true, true, some df2, some hd, true,
           some chunks⟩ pe1 df2 hd chunks rfl rfl rfl rfl rfl rfl
         have me2 := main_success_eq ⟨true, true, some df2, some hd, true,
           some chunks⟩ pe2 df2 hd chunks rfl rfl rfl rfl rfl rfl
         rw [me1, me2]
         have h12 : (pe1 (chunkLoop df2 chunks)).Perm
             (pe2 (chunkLoop df2 chunks)) :=
           (List.perm_ext_iff_of_nodup (hv1 _).1 (hv2 _).1).mpr
             (fun a => ((hv1 _).2 a).trans ((hv2 _).2 a).symm)
         exact ⟨rfl, rfl,
           ((List.perm_insertionSort _ _).trans h12).trans
             (List.perm_insertionSort _ _).symm,
           List.sorted_insertionSort _ _, List.sorted_insertionSort _ _⟩)

/-- C8 witness: applied at the concrete run `envOk` with the dedup
enumeration and its reverse. -/
theorem run_determinism_witness :
    (main envOk (fun xs => xs.dedup)).printed.Perm
      ((main envOk (fun xs => xs.dedup.reverse)).printed) ∧
    List.Sorted scoreGE (main envOk (fun xs => xs.dedup)).printed := by
  have hv1 : ∀ xs : List CompResult, IsSetEnum xs xs.dedup := fun xs =>
    ⟨xs.nodup_dedup, fun a => List.mem_dedup⟩
  have hv2 : ∀ xs : List CompResult, IsSetEnum xs xs.dedup.reverse :=
    fun xs => ⟨List.nodup_reverse.mpr xs.nodup_dedup,
      fun a => List.mem_reverse.trans List.mem_dedup⟩
  have h := run_determinism envOk (fun xs => xs.dedup)
    (fun xs => xs.dedup.reverse) hv1 hv2
  exact ⟨h.2.2.1, h.2.2.2.1⟩

/-- C8 counterexample: two legitimate set-iteration orders of the same
collected results give different final printed lists — the two distinct
equal-score entries swap places — so two runs need not produce identical
lists "including the order of entries with equal scores". -/
theorem run_determinism_counterexample :
    (∀ xs : List CompResult, IsSetEnum xs xs.dedup) ∧
    (∀ xs : List CompResult, IsSetEnum xs xs.dedup.reverse) ∧
    (main envOk (fun xs => xs.dedup)).printed ≠
      (main envOk (fun xs => xs.dedup.reverse)).printed := by
  refine ⟨fun xs => ⟨xs.nodup_dedup, fun a => List.mem_dedup⟩,
    fun xs => ⟨List.nodup_reverse.mpr xs.nodup_dedup,
      fun a => List.mem_reverse.trans List.mem_dedup⟩, ?_⟩
  have hdd : (chunkLoop dfB [some dfA]).dedup =
      [("a", "x", (1 : ℝ)), ("b", "x", (1 : ℝ))] := by
    rw [chunkLoop_envOk, List.dedup_cons_of_not_mem (by simp),
      List.dedup_cons_of_not_mem (List.not_mem_nil _), List.dedup_nil]
  have hp1 : (main envOk (fun xs => xs.dedup)).printed =
      [("a", "x", (1 : ℝ)), ("b", "x", (1 : ℝ))] := by
    rw [main_success_eq envOk _ dfB dfB [some dfA] rfl rfl rfl rfl rfl rfl]
    show List.insertionSort scoreGE (chunkLoop dfB [some dfA]).dedup = _
    rw [hdd, @insertionSort_pair_eq ("a", "x", (1 : ℝ)) ("b", "x", (1 : ℝ)) rfl]
  have hp2 : (main envOk (fun xs => xs.dedup.reverse)).printed =
      [("b", "x", (1 : ℝ)), ("a", "x", (1 : ℝ))] := by
    rw [main_success_eq envOk _ dfB dfB [some dfA] rfl rfl rfl rfl rfl rfl]
    show List.insertionSort scoreGE (chunkLoop dfB [some dfA]).dedup.reverse = _
    rw [hdd]
    show List.insertionSort scoreGE
      [("b", "x", (1 : ℝ)), ("a", "x", (1 : ℝ))] = _
    rw [@insertionSort_pair_eq ("b", "x", (1 : ℝ)) ("a", "x", (1 : ℝ)) rfl]
  rw [hp1, hp2]
  intro h
  simp at h

/-- C9 (amended): whenever chunk enumeration succeeds, every run that
creates the worker pool also closes and joins it — including runs where
individual chunks fail; (the counterexample shows the guarantee does not
extend to runs where a failure strikes between pool creation and
shutdown). -/
theorem pool_cleanup (env : Env) (pe : List CompResult → List CompResult)
    (chunks : List (Option DataFrame)) (h : env.toDelayed = some chunks) :
    Ev.poolCreated ∈ (main env pe).events →
      Ev.poolClosed ∈ (main env pe).events ∧
        Ev.poolJoined ∈ (main env pe).events := by
  obtain ⟨e1, e2, lB, hA, pk, tD⟩ := env
  simp only at h
  subst h
  cases e1 <;> cases e2 <;> cases lB <;> cases hA <;> cases pk <;>
    simp [main, preEvents]

/-- C9 witness: the concrete successful run (with one chunk) creates the
pool and both closes and joins it. -/
theorem pool_cleanup_witness :
    envOk.toDelayed = some [some dfA] ∧
    Ev.poolCreated ∈ (main envOk id).events ∧
    Ev.poolClosed ∈ (main envOk id).events ∧
    Ev.poolJoined ∈ (main envOk id).events := by
  have hmem : Ev.poolCreated ∈ (main envOk id).events := by
    rw [main_success_eq envOk id dfB dfB [some dfA] rfl rfl rfl rfl rfl rfl]
    simp [preEvents]
  have h := pool_cleanup envOk id [some dfA] rfl hmem
  exact ⟨rfl, hmem, h.1, h.2⟩

/-- C9 counterexample: a run where chunk enumeration fails after the
pool was created exits through the outer handler without closing or
joining the pool — the cleanup is not guaranteed on every exit path. -/
theorem pool_leak_counterexample :
    Ev.poolCreated ∈ (main envEnumFail id).events ∧
    Ev.poolClosed ∉ (main envEnumFail id).events ∧
    Ev.poolJoined ∉ (main envEnumFail id).events ∧
    (main envEnumFail id).exitCode = 1 := by
  refine ⟨?_, ?_, ?_, ?_⟩ <;> simp [main, envEnumFail, preEvents]

/-- C10: the scorer is symmetric in its two arguments — the cosine of
the two mean hashed vectors, the absolute Pearson correlation, the
type-mismatch branch and every failure condition are all symmetric, and
the hashing scheme is stateless, so the fit-then-transform asymmetry is
semantically inert. -/
theorem compare_columns_symm (c1 c2 : Column) :
    compare_columns c1 c2 = compare_columns c2 c1 := by
  rcases c1 with ⟨n1, d1⟩
  rcases c2 with ⟨n2, d2⟩
  cases d1 with
  | strData v1 =>
    cases d2 with
    | strData v2 =>
      by_cases h1 : v1 = []
      · simp [compare_columns, compare_columns_core, h1]
      · by_cases h2 : v2 = []
        · simp [compare_columns, compare_columns_core, h2]
        · rw [compare_columns_str n1 n2 v1 v2 h1 h2,
            compare_columns_str n2 n1 v2 v1 h2 h1, cosSim_comm]
    | numData v2 => rfl
    | unkData k => rfl
  | numData v1 =>
    cases d2 with
    | strData v2 => rfl
    | numData v2 =>
      by_cases h : PearsonDefined (fillZero v1) (fillZero v2)
      · have h' := (pearsonDefined_comm _ _).mp h
        rw [compare_columns_num, compare_columns_num, if_pos h, if_pos h',
          pearson_comm]
      · have h' : ¬ PearsonDefined (fillZero v2) (fillZero v1) :=
          fun hh => h ((pearsonDefined_comm _ _).mp hh)
        rw [compare_columns_num, compare_columns_num, if_neg h, if_neg h']
    | unkData k => rfl
  | unkData k => cases d2 <;> rfl

end DataAnalysis
